import Mathlib

/-!
Shallow embedding of `src/shark_mvp.py` (SharkMathModel).

Python floats are idealised as real numbers `ℝ`; `math.sin`, `math.cos`,
`math.exp`, `math.atan2`, `math.sqrt` become the corresponding real
functions.  Python's float modulo `x % y` (for `y > 0`) is `x - y * ⌊x / y⌋`.
Python's `round(x, 3)` is modelled as `round (x * 1000) / 1000` with the
integer rounding of Mathlib; no claim below depends on the tie-breaking rule.
Non-finite floats (`nan`, `inf`, `-inf`) are modelled by the `PyFloat` type so
that the finiteness check at the top of `shark_probability` is represented
faithfully; the fallible function returns `Except String ℝ` mirroring
`raise ValueError`.
-/

open Real

noncomputable section

/-- A Python float: either a finite real value or one of the non-finite
IEEE values (`nan`, `inf`, `-inf`). -/
inductive PyFloat where
  | finite (x : ℝ)
  | nan
  | posInf
  | negInf

/-- Embedding of `math.isfinite` on a `PyFloat`. -/
def PyFloat.isfinite : PyFloat → Bool
  | .finite _ => true
  | _ => false

/-- The real value carried by a finite `PyFloat` (junk value 0 on the
non-finite constructors, which are only reached behind the finiteness check). -/
def PyFloat.val : PyFloat → ℝ
  | .finite x => x
  | _ => 0

/-- Embedding of `class Hotspot` (src/shark_mvp.py lines 13-19). -/
structure Hotspot where
  name : String
  lat : ℝ
  lon : ℝ
  weight : ℝ
  radius_km : ℝ

/-- The `HOTSPOTS` table (src/shark_mvp.py lines 22-30). -/
def HOTSPOTS : List Hotspot :=
  [⟨"Eastern Australia", -25.5, 153, 0.22, 750⟩,
   ⟨"South Africa", -34, 18.5, 0.18, 550⟩,
   ⟨"Hawaii", 20.9, -157, 0.14, 450⟩,
   ⟨"Florida", 27.5, -80, 0.16, 500⟩,
   ⟨"California", 34, -119.5, 0.12, 500⟩,
   ⟨"Brazil", -22.9, -43.2, 0.10, 420⟩,
   ⟨"Red Sea", 20, 38.5, 0.10, 350⟩]

/-- Embedding of `class LandRegion` (src/shark_mvp.py lines 33-39). -/
structure LandRegion where
  lat_min : ℝ
  lat_max : ℝ
  lon_min : ℝ
  lon_max : ℝ
  penalty : ℝ

/-- The `LAND_INTERIORS` table (src/shark_mvp.py lines 43-49). -/
def LAND_INTERIORS : List LandRegion :=
  [⟨25, 50, -110, -90, 0.35⟩,
   ⟨-20, 5, -70, -50, 0.40⟩,
   ⟨-10, 20, 10, 35, 0.45⟩,
   ⟨30, 60, 40, 120, 0.50⟩,
   ⟨-35, -15, 120, 145, 0.65⟩]

/-- Embedding of `clamp(value, low, high)` (src/shark_mvp.py line 52): `max(low, min(high, value))`. -/
def clamp (value low high : ℝ) : ℝ := max low (min high value)

/-- The call `clamp(value)` with the Python default arguments `low=0, high=1`. -/
def clamp01 (value : ℝ) : ℝ := clamp value 0 1

/-- Python float modulo `x % y` for positive modulus `y`:
`x - y * ⌊x / y⌋` (result has the sign of `y`). -/
def pymod (x y : ℝ) : ℝ := x - y * ⌊x / y⌋

/-- Embedding of `_wrap_longitude(lon)` (src/shark_mvp.py lines 56-60):
`wrapped = (lon + 180) % 360 - 180`, returning `wrapped` unless it is
exactly `-180`, in which case `180`. -/
def wrap_longitude (lon : ℝ) : ℝ :=
  let wrapped := pymod (lon + 180) 360 - 180
  if wrapped ≠ -180 then wrapped else 180

/-- Embedding of `math.radians(x) = x * π / 180`. -/
def radians (x : ℝ) : ℝ := x * π / 180

/-- Embedding of `math.atan2(y, x)`, the standard two-argument arctangent (IEEE / C
convention, as implemented by Python's `math.atan2`). -/
def atan2 (y x : ℝ) : ℝ :=
  if 0 < x then arctan (y / x)
  else if x < 0 then (if 0 ≤ y then arctan (y / x) + π else arctan (y / x) - π)
  else (if 0 < y then π / 2 else if y < 0 then -(π / 2) else 0)

/-- The intermediate `a` of `_haversine_distance_km` (src/shark_mvp.py
lines 69-74): `sin(d_lat/2)^2 + cos(lat1)*cos(lat2)*sin(d_lon/2)^2`
with all angles in radians. -/
def hav_a (lat1 lon1 lat2 lon2 : ℝ) : ℝ :=
  sin (radians (lat2 - lat1) / 2) ^ 2 +
    cos (radians lat1) * cos (radians lat2) * sin (radians (lon2 - lon1) / 2) ^ 2

/-- Embedding of `_haversine_distance_km` (src/shark_mvp.py lines 63-76):
`c = 2 * atan2(sqrt(a), sqrt(1 - a))`, distance `= 6371 * c`. -/
def haversine_distance_km (lat1 lon1 lat2 lon2 : ℝ) : ℝ :=
  6371 * (2 * atan2 (Real.sqrt (hav_a lat1 lon1 lat2 lon2))
    (Real.sqrt (1 - hav_a lat1 lon1 lat2 lon2)))

/-- Embedding of `_lat_factor(lat)` (src/shark_mvp.py lines 79-87). -/
def lat_factor (lat : ℝ) : ℝ :=
  let equatorial_bias := cos (radians lat) ^ 2
  let tropic_span := clamp01 (1 - |lat| / 30)
  let polar_penalty := clamp01 ((|lat| - 50) / 40)
  clamp (0.6 * equatorial_bias + 0.4 * tropic_span - 0.3 * polar_penalty) 0 1

/-- Embedding of `_current_factor(lat, lon)` (src/shark_mvp.py lines 90-97). -/
def current_factor (lat lon : ℝ) : ℝ :=
  let lon_rad := radians (wrap_longitude lon)
  let lat_rad := radians lat
  let warm_current := 0.5 * (1 + sin (lon_rad * 1.5) * cos lat_rad)
  let upwelling := 0.5 * (1 + cos (lon_rad * 0.7 + sin lat_rad))
  clamp (0.6 * warm_current + 0.4 * upwelling) 0 1

/-- The per-hotspot `influence = exp(-(distance / radius_km) ** 2)`
(src/shark_mvp.py line 104), as a function of the distance. -/
def spot_influence (spot : Hotspot) (distance : ℝ) : ℝ :=
  Real.exp (-(distance / spot.radius_km) ^ 2)

/-- Embedding of `_hotspot_contribution(lat, lon, hotspots)` (src/shark_mvp.py
lines 100-106): sum of `weight * influence` over the hotspot table. -/
def hotspot_contribution (lat lon : ℝ) (hotspots : List Hotspot) : ℝ :=
  hotspots.foldl (fun score spot =>
    score + spot.weight *
      spot_influence spot (haversine_distance_km lat lon spot.lat spot.lon)) 0

/-- The membership test of `_land_penalty` (src/shark_mvp.py line 112):
`region.lat_min <= lat <= region.lat_max and region.lon_min <= lon <= region.lon_max`. -/
def region_contains (region : LandRegion) (lat lon : ℝ) : Prop :=
  region.lat_min ≤ lat ∧ lat ≤ region.lat_max ∧
    region.lon_min ≤ lon ∧ lon ≤ region.lon_max

instance (region : LandRegion) (lat lon : ℝ) :
    Decidable (region_contains region lat lon) := by
  unfold region_contains
  infer_instance

/-- Embedding of `_land_penalty(lat, lon, regions)` (src/shark_mvp.py lines 109-114):
accumulate `region.penalty` over every region whose bounding box contains
the point, all four bounds inclusive. -/
def land_penalty (lat lon : ℝ) (regions : List LandRegion) : ℝ :=
  regions.foldl (fun penalty region =>
    if region_contains region lat lon
    then penalty + region.penalty else penalty) 0

/-- Python `round(x, 3)` idealised over `ℝ`: round `x * 1000` to an integer
and divide by `1000`.  (Python uses round-half-to-even on binary floats; no
claim depends on the tie rule.) -/
def round3 (x : ℝ) : ℝ := (round (x * 1000) : ℤ) / 1000

/-- The body of `shark_probability` after the finiteness check
(src/shark_mvp.py lines 134-144), generalised by the land-region table used
for the penalty (the source passes `LAND_INTERIORS`); `regions` is the only
extra parameter. -/
def estimate_with (lat0 lon0 : ℝ) (regions : List LandRegion) : ℝ :=
  let lat := clamp lat0 (-90) 90
  let lon := wrap_longitude lon0
  let base := 0.05
  let lat_component := 0.35 * lat_factor lat
  let current_component := 0.20 * current_factor lat lon
  let hotspot_component := hotspot_contribution lat lon HOTSPOTS
  let land_pen := land_penalty lat lon regions
  let probability := clamp01 (base + lat_component + current_component +
    hotspot_component - land_pen)
  round3 probability

/-- Embedding of `shark_probability(lat, lon)` (src/shark_mvp.py lines 117-144):
raise `ValueError` when either coordinate is non-finite, otherwise clamp the
latitude, wrap the longitude, combine the four sub-scores and return the
clamped, rounded probability. -/
def shark_probability (latv lonv : PyFloat) : Except String ℝ :=
  if ¬ latv.isfinite ∨ ¬ lonv.isfinite then
    .error "Latitude and longitude must be finite numbers."
  else
    .ok (estimate_with latv.val lonv.val LAND_INTERIORS)

theorem clamp01_nonneg (v : ℝ) : 0 ≤ clamp01 v := le_max_left 0 _

theorem clamp01_le_one (v : ℝ) : clamp01 v ≤ 1 := by
  simp only [clamp01, clamp, max_le_iff]
  exact ⟨zero_le_one, min_le_left 1 v⟩

theorem clamp01_of_nonpos (v : ℝ) (h : v ≤ 0) : clamp01 v = 0 := by
  simp only [clamp01, clamp]
  rw [min_eq_right (le_trans h zero_le_one), max_eq_left h]

theorem clamp01_of_mem (v : ℝ) (h0 : 0 ≤ v) (h1 : v ≤ 1) : clamp01 v = v := by
  simp only [clamp01, clamp]
  rw [min_eq_right h1, max_eq_right h0]

theorem round3_le (x : ℝ) : round3 x ≤ x + 1 / 2000 := by
  have h := abs_sub_round (x * 1000)
  rw [abs_sub_le_iff] at h
  have h1 : (round (x * 1000) : ℝ) ≤ x * 1000 + 1 / 2 := by linarith [h.2]
  calc (round (x * 1000) : ℝ) / 1000 ≤ (x * 1000 + 1 / 2) / 1000 := by linarith
    _ = x + 1 / 2000 := by ring

theorem le_round3 (x : ℝ) : x - 1 / 2000 ≤ round3 x := by
  have h := abs_sub_round (x * 1000)
  rw [abs_sub_le_iff] at h
  have h1 : x * 1000 - 1 / 2 ≤ (round (x * 1000) : ℝ) := by linarith [h.1]
  calc x - 1 / 2000 = (x * 1000 - 1 / 2) / 1000 := by ring
    _ ≤ (round (x * 1000) : ℝ) / 1000 := by linarith

theorem round3_mono {x y : ℝ} (h : x ≤ y) : round3 x ≤ round3 y := by
  unfold round3
  have hr : round (x * 1000) ≤ round (y * 1000) := by
    rw [round_eq, round_eq]
    exact Int.floor_le_floor (by linarith)
  have : ((round (x * 1000) : ℤ) : ℝ) ≤ ((round (y * 1000) : ℤ) : ℝ) :=
    Int.cast_le.mpr hr
  linarith

theorem round3_zero : round3 0 = 0 := by
  unfold round3
  norm_num

theorem round3_one : round3 1 = 1 := by
  unfold round3
  rw [one_mul, show ((1000 : ℝ)) = ((1000 : ℤ) : ℝ) by norm_num, round_intCast]
  norm_num

theorem floor_eq_of (r : ℝ) (z : ℤ) (h1 : (z : ℝ) ≤ r) (h2 : r < z + 1) :
    ⌊r⌋ = z := Int.floor_eq_iff.mpr ⟨h1, h2⟩

theorem pymod_eq_fract (x y : ℝ) (hy : y ≠ 0) :
    pymod x y = y * Int.fract (x / y) := by
  unfold pymod Int.fract
  field_simp

theorem pymod_nonneg (x y : ℝ) (hy : 0 < y) : 0 ≤ pymod x y := by
  rw [pymod_eq_fract x y (ne_of_gt hy)]
  exact mul_nonneg (le_of_lt hy) (Int.fract_nonneg _)

theorem pymod_lt (x y : ℝ) (hy : 0 < y) : pymod x y < y := by
  rw [pymod_eq_fract x y (ne_of_gt hy)]
  calc y * Int.fract (x / y) < y * 1 :=
        (mul_lt_mul_left hy).mpr (Int.fract_lt_one _)
    _ = y := mul_one y

theorem pymod_add_int_mul (x y : ℝ) (k : ℤ) (hy : y ≠ 0) :
    pymod (x + y * k) y = pymod x y := by
  unfold pymod
  have h : (x + y * k) / y = x / y + k := by
    field_simp
    ring
  rw [h, Int.floor_add_int]
  push_cast
  ring

theorem wrap_longitude_mem (lon : ℝ) :
    -180 < wrap_longitude lon ∧ wrap_longitude lon ≤ 180 := by
  have h0 : (0 : ℝ) ≤ pymod (lon + 180) 360 := pymod_nonneg _ _ (by norm_num)
  have h1 : pymod (lon + 180) 360 < 360 := pymod_lt _ _ (by norm_num)
  unfold wrap_longitude
  by_cases h : pymod (lon + 180) 360 - 180 = -180
  · rw [if_neg (by simpa using h)]
    norm_num
  · rw [if_pos h]
    constructor
    · exact lt_of_le_of_ne (by linarith) (Ne.symm h)
    · linarith

theorem wrap_longitude_add_360 (lon : ℝ) (k : ℤ) :
    wrap_longitude (lon + 360 * k) = wrap_longitude lon := by
  unfold wrap_longitude
  rw [show lon + 360 * (k : ℝ) + 180 = (lon + 180) + 360 * k by ring,
    pymod_add_int_mul (lon + 180) 360 k (by norm_num)]

theorem wrap_longitude_180 : wrap_longitude 180 = 180 := by
  have h : ⌊(180 + 180 : ℝ) / 360⌋ = 1 :=
    floor_eq_of _ 1 (by norm_num) (by norm_num)
  unfold wrap_longitude pymod
  rw [h]
  norm_num

theorem wrap_longitude_200 : wrap_longitude 200 = -160 := by
  have h : ⌊(200 + 180 : ℝ) / 360⌋ = 1 :=
    floor_eq_of _ 1 (by norm_num) (by norm_num)
  unfold wrap_longitude pymod
  rw [h]
  norm_num

theorem wrap_longitude_neg160 : wrap_longitude (-160) = -160 := by
  have h : ⌊(-160 + 180 : ℝ) / 360⌋ = 0 :=
    floor_eq_of _ 0 (by norm_num) (by norm_num)
  unfold wrap_longitude pymod
  rw [h]
  norm_num

/-- Claim C3, amended.  `_wrap_longitude` computes
`((lon + 180) mod 360) - 180` and remaps an exact `-180` to `+180`; hence
every returned longitude lies in the half-open-at-the-left range
`(-180, 180]` (not `[-180, 180)`: the seam value is returned as `+180`). -/
theorem C3_wrap_longitude_amended (lon : ℝ) :
    (wrap_longitude lon =
      if pymod (lon + 180) 360 - 180 = -180 then 180
      else pymod (lon + 180) 360 - 180) ∧
    -180 < wrap_longitude lon ∧ wrap_longitude lon ≤ 180 := by
  refine ⟨?_, wrap_longitude_mem lon⟩
  unfold wrap_longitude
  by_cases h : pymod (lon + 180) 360 - 180 = -180
  · rw [if_pos h, if_neg (by simpa using h)]
  · rw [if_neg h, if_pos h]

/-- Claim C3, counterexample.  At `lon = 180` the wrap returns `+180`,
which does not lie in `[-180, 180)`: the claimed range is wrong at the seam. -/
theorem C3_wrap_longitude_cex :
    wrap_longitude 180 = 180 ∧ ¬ wrap_longitude 180 < 180 := by
  refine ⟨wrap_longitude_180, ?_⟩
  rw [wrap_longitude_180]
  exact lt_irrefl 180

/-- Claim C4.  Longitude wrap invariance: for every finite `lat`, `lon` and
every integer `k`, `shark_probability(lat, lon + 360*k)` equals
`shark_probability(lat, lon)` (exactly, in the real-valued model). -/
theorem C4_wrap_invariance (lat lon : ℝ) (k : ℤ) :
    shark_probability (.finite lat) (.finite (lon + 360 * k)) =
      shark_probability (.finite lat) (.finite lon) := by
  simp only [shark_probability, PyFloat.isfinite, PyFloat.val, Bool.not_true,
    or_self, if_false, estimate_with]
  rw [wrap_longitude_add_360 lon k]

/-- Claim C5.  Latitude clamp invariance: `estimate(91, lon) = estimate(90, lon)`
and `estimate(-95, lon) = estimate(-90, lon)` for every finite `lon`, and the
combined clamp-and-wrap case `estimate(91, 200) = estimate(90, -160)`. -/
theorem C5_clamp_invariance (lon : ℝ) :
    shark_probability (.finite 91) (.finite lon) =
      shark_probability (.finite 90) (.finite lon) ∧
    shark_probability (.finite (-95)) (.finite lon) =
      shark_probability (.finite (-90)) (.finite lon) ∧
    shark_probability (.finite 91) (.finite 200) =
      shark_probability (.finite 90) (.finite (-160)) := by
  have h91 : clamp 91 (-90) 90 = clamp 90 (-90) 90 := by
    unfold clamp
    norm_num
  have h95 : clamp (-95) (-90) 90 = clamp (-90) (-90) 90 := by
    unfold clamp
    norm_num
  refine ⟨?_, ?_, ?_⟩
  · simp only [shark_probability, PyFloat.isfinite, PyFloat.val, Bool.not_true,
      or_self, if_false, estimate_with]
    rw [h91]
  · simp only [shark_probability, PyFloat.isfinite, PyFloat.val, Bool.not_true,
      or_self, if_false, estimate_with]
    rw [h95]
  · simp only [shark_probability, PyFloat.isfinite, PyFloat.val, Bool.not_true,
      or_self, if_false, estimate_with]
    rw [h91, wrap_longitude_200, wrap_longitude_neg160]

theorem radians_neg (x : ℝ) : radians (-x) = -(radians x) := by
  unfold radians
  ring

/-- Claim C10.  `_lat_factor` is an even function of the latitude (it depends on
`lat` only through `cos` and `|lat|`), so the latitude component
`0.35 * _lat_factor` of the estimate is symmetric about the equator, also
after the latitude clamp. -/
theorem C10_lat_factor_even (lat : ℝ) :
    lat_factor (-lat) = lat_factor lat ∧
    0.35 * lat_factor (clamp (-lat) (-90) 90) =
      0.35 * lat_factor (clamp lat (-90) 90) := by
  have heven : ∀ x : ℝ, lat_factor (-x) = lat_factor x := by
    intro x
    unfold lat_factor
    rw [radians_neg, Real.cos_neg, abs_neg]
  have hclamp : clamp (-lat) (-90) 90 = -(clamp lat (-90) 90) := by
    unfold clamp
    rcases le_total lat (-90) with h1 | h1
    · rw [min_eq_right (show lat ≤ (90 : ℝ) by linarith),
        max_eq_left h1, min_eq_left (show (90 : ℝ) ≤ -lat by linarith)]
      norm_num
    · rcases le_total 90 lat with h2 | h2
      · rw [min_eq_left h2, min_eq_right (show -lat ≤ (90 : ℝ) by linarith),
          max_eq_left (show -lat ≤ (-90 : ℝ) by linarith)]
        norm_num
      · rw [min_eq_right h2, max_eq_right h1,
          min_eq_right (show -lat ≤ (90 : ℝ) by linarith),
          max_eq_right (show (-90 : ℝ) ≤ -lat by linarith)]
  refine ⟨heven lat, ?_⟩
  rw [hclamp, heven]

theorem clamp01_mono {x y : ℝ} (h : x ≤ y) : clamp01 x ≤ clamp01 y :=
  max_le_max (le_refl 0) (min_le_min (le_refl 1) h)

/-- Claim C1.  For every finite `(lat, lon)`, `shark_probability` returns
`round3` of `clamp(base + 0.35*lat_factor + 0.20*current_factor +
hotspot_contribution - land_penalty, 0, 1)` evaluated at the normalized
coordinates, and that returned value always lies in `[0, 1]`. -/
theorem C1_probability_formula (lat lon : ℝ) :
    shark_probability (.finite lat) (.finite lon) =
      .ok (round3 (clamp (0.05 + 0.35 * lat_factor (clamp lat (-90) 90) +
        0.20 * current_factor (clamp lat (-90) 90) (wrap_longitude lon) +
        hotspot_contribution (clamp lat (-90) 90) (wrap_longitude lon) HOTSPOTS -
        land_penalty (clamp lat (-90) 90) (wrap_longitude lon) LAND_INTERIORS)
        0 1)) ∧
    0 ≤ round3 (clamp (0.05 + 0.35 * lat_factor (clamp lat (-90) 90) +
        0.20 * current_factor (clamp lat (-90) 90) (wrap_longitude lon) +
        hotspot_contribution (clamp lat (-90) 90) (wrap_longitude lon) HOTSPOTS -
        land_penalty (clamp lat (-90) 90) (wrap_longitude lon) LAND_INTERIORS)
        0 1) ∧
    round3 (clamp (0.05 + 0.35 * lat_factor (clamp lat (-90) 90) +
        0.20 * current_factor (clamp lat (-90) 90) (wrap_longitude lon) +
        hotspot_contribution (clamp lat (-90) 90) (wrap_longitude lon) HOTSPOTS -
        land_penalty (clamp lat (-90) 90) (wrap_longitude lon) LAND_INTERIORS)
        0 1) ≤ 1 := by
  set v := 0.05 + 0.35 * lat_factor (clamp lat (-90) 90) +
    0.20 * current_factor (clamp lat (-90) 90) (wrap_longitude lon) +
    hotspot_contribution (clamp lat (-90) 90) (wrap_longitude lon) HOTSPOTS -
    land_penalty (clamp lat (-90) 90) (wrap_longitude lon) LAND_INTERIORS with hv
  refine ⟨rfl, ?_, ?_⟩
  · calc (0 : ℝ) = round3 0 := round3_zero.symm
      _ ≤ round3 (clamp v 0 1) := round3_mono (clamp01_nonneg v)
  · calc round3 (clamp v 0 1) ≤ round3 1 := round3_mono (clamp01_le_one v)
      _ = 1 := round3_one

/-- Claim C2.  `shark_probability` fails with the invalid-input error exactly
when one of the two coordinates is non-finite (NaN or an infinity), producing
no probability; on every finite pair it returns normally with the computed
probability. -/
theorem C2_invalid_input (latv lonv : PyFloat) :
    ((∃ msg, shark_probability latv lonv = .error msg) ↔
      (latv.isfinite = false ∨ lonv.isfinite = false)) ∧
    (latv.isfinite = true → lonv.isfinite = true →
      shark_probability latv lonv =
        .ok (estimate_with latv.val lonv.val LAND_INTERIORS)) := by
  cases latv <;> cases lonv <;>
    simp [shark_probability, PyFloat.isfinite]

/-- Claim C2 witness: a NaN latitude is rejected with the error and a pair of
finite coordinates is answered with a probability. -/
theorem C2_invalid_input_witness :
    (∃ msg, shark_probability PyFloat.nan (PyFloat.finite 0) = .error msg) ∧
    shark_probability (PyFloat.finite 3) (PyFloat.finite 4) =
      .ok (estimate_with 3 4 LAND_INTERIORS) :=
  ⟨(C2_invalid_input PyFloat.nan (PyFloat.finite 0)).1.mpr (Or.inl rfl),
   (C2_invalid_input (PyFloat.finite 3) (PyFloat.finite 4)).2 rfl rfl⟩

/-- Claim C6.  A single hotspot's contribution `weight * exp(-(d/radius)^2)` is
non-increasing in the distance `d ≥ 0`, its influence is exactly `1` at
distance `0`, and there the contribution equals the full weight. -/
theorem C6_hotspot_decay (spot : Hotspot) (d1 d2 : ℝ)
    (hw : 0 ≤ spot.weight) (h0 : 0 ≤ d1) (h12 : d1 ≤ d2) :
    spot.weight * spot_influence spot d2 ≤ spot.weight * spot_influence spot d1 ∧
    spot_influence spot 0 = 1 ∧
    spot.weight * spot_influence spot 0 = spot.weight := by
  have hinf0 : spot_influence spot 0 = 1 := by
    unfold spot_influence
    rw [zero_div]
    norm_num
  refine ⟨?_, hinf0, by rw [hinf0, mul_one]⟩
  apply mul_le_mul_of_nonneg_left _ hw
  unfold spot_influence
  apply Real.exp_le_exp.mpr
  apply neg_le_neg
  rcases eq_or_ne spot.radius_km 0 with hr | hr
  · rw [hr, div_zero, div_zero]
  · have hr2 : 0 < spot.radius_km ^ 2 := by positivity
    rw [div_pow, div_pow]
    exact (div_le_div_iff_of_pos_right hr2).mpr (pow_le_pow_left₀ h0 h12 2)

/-- Claim C6 witness: the Eastern Australia hotspot at distances 0 and 1 km. -/
theorem C6_hotspot_decay_witness :
    0 ≤ (Hotspot.mk "Eastern Australia" (-25.5) 153 0.22 750).weight ∧
    (0 : ℝ) ≤ 0 ∧ (0 : ℝ) ≤ 1 ∧
    ((Hotspot.mk "Eastern Australia" (-25.5) 153 0.22 750).weight *
        spot_influence (Hotspot.mk "Eastern Australia" (-25.5) 153 0.22 750) 1 ≤
      (Hotspot.mk "Eastern Australia" (-25.5) 153 0.22 750).weight *
        spot_influence (Hotspot.mk "Eastern Australia" (-25.5) 153 0.22 750) 0 ∧
      spot_influence (Hotspot.mk "Eastern Australia" (-25.5) 153 0.22 750) 0 = 1 ∧
      (Hotspot.mk "Eastern Australia" (-25.5) 153 0.22 750).weight *
        spot_influence (Hotspot.mk "Eastern Australia" (-25.5) 153 0.22 750) 0 =
        (Hotspot.mk "Eastern Australia" (-25.5) 153 0.22 750).weight) :=
  ⟨show (0 : ℝ) ≤ 0.22 by norm_num, le_refl 0, zero_le_one,
   C6_hotspot_decay (Hotspot.mk "Eastern Australia" (-25.5) 153 0.22 750) 0 1
     (show (0 : ℝ) ≤ 0.22 by norm_num) (le_refl 0) zero_le_one⟩

theorem land_penalty_foldl (lat lon : ℝ) (regs : List LandRegion) (acc : ℝ) :
    regs.foldl (fun penalty region =>
        if region_contains region lat lon
        then penalty + region.penalty else penalty) acc =
      acc + (regs.map (fun r =>
        if region_contains r lat lon then r.penalty else 0)).sum := by
  induction regs generalizing acc with
  | nil => simp
  | cons r rs ih =>
    simp only [List.foldl_cons, List.map_cons, List.sum_cons]
    by_cases h : region_contains r lat lon
    · rw [if_pos h, if_pos h, ih]
      ring
    · rw [if_neg h, if_neg h, ih]
      ring

theorem land_penalty_eq_sum (lat lon : ℝ) (regs : List LandRegion) :
    land_penalty lat lon regs =
      (regs.map (fun r =>
        if region_contains r lat lon then r.penalty else 0)).sum := by
  unfold land_penalty
  rw [land_penalty_foldl]
  ring

/-- Claim C7.  The land penalty is the sum of the penalties of exactly the
land boxes containing the point (inclusive bounds, via `region_contains`);
it is `0` when no box contains the point; and a point inside two boxes,
stacking both penalties, yields a probability no higher than with only one
of them, all other score terms (`s`) equal. -/
theorem C7_land_penalty_stacking (lat lon : ℝ) (regs : List LandRegion) :
    land_penalty lat lon regs =
      (regs.map (fun r =>
        if region_contains r lat lon then r.penalty else 0)).sum ∧
    ((∀ r ∈ regs, ¬ region_contains r lat lon) → land_penalty lat lon regs = 0) ∧
    (∀ (s : ℝ) (r1 r2 : LandRegion), region_contains r1 lat lon →
      region_contains r2 lat lon → 0 ≤ r2.penalty →
      round3 (clamp01 (s - land_penalty lat lon [r1, r2])) ≤
        round3 (clamp01 (s - land_penalty lat lon [r1]))) := by
  refine ⟨land_penalty_eq_sum lat lon regs, ?_, ?_⟩
  · intro h
    rw [land_penalty_eq_sum]
    apply List.sum_eq_zero
    intro x hx
    rw [List.mem_map] at hx
    obtain ⟨r, hr, rfl⟩ := hx
    rw [if_neg (h r hr)]
  · intro s r1 r2 h1 h2 hp
    apply round3_mono
    apply clamp01_mono
    have e1 : land_penalty lat lon [r1] = r1.penalty := by
      rw [land_penalty_eq_sum]
      simp [if_pos h1]
    have e2 : land_penalty lat lon [r1, r2] = r1.penalty + r2.penalty := by
      rw [land_penalty_eq_sum]
      simp [if_pos h1, if_pos h2]
    rw [e1, e2]
    linarith

/-- Claim C7 witness: at `(45, 90)` the empty table gives penalty `0`, and
doubling up the Eurasian box can only lower the resulting probability. -/
theorem C7_land_penalty_stacking_witness :
    land_penalty 45 90 ([] : List LandRegion) = 0 ∧
    round3 (clamp01 (1 - land_penalty 45 90
        [⟨30, 60, 40, 120, 0.50⟩, ⟨30, 60, 40, 120, 0.50⟩])) ≤
      round3 (clamp01 (1 - land_penalty 45 90 [⟨30, 60, 40, 120, 0.50⟩])) := by
  have hc : region_contains (⟨30, 60, 40, 120, 0.50⟩ : LandRegion) 45 90 := by
    simp only [region_contains]
    norm_num
  exact ⟨(C7_land_penalty_stacking 45 90 []).2.1 (by simp),
    (C7_land_penalty_stacking 45 90 []).2.2 1 _ _ hc hc
      (show (0 : ℝ) ≤ 0.50 by norm_num)⟩

theorem hotspot_foldl (lat lon : ℝ) (hs : List Hotspot) (acc : ℝ) :
    hs.foldl (fun score spot => score + spot.weight *
        spot_influence spot (haversine_distance_km lat lon spot.lat spot.lon))
        acc =
      acc + (hs.map (fun spot => spot.weight *
        spot_influence spot (haversine_distance_km lat lon spot.lat spot.lon))).sum := by
  induction hs generalizing acc with
  | nil => simp
  | cons h hs ih =>
    simp only [List.foldl_cons, List.map_cons, List.sum_cons]
    rw [ih]
    ring

theorem hotspot_contribution_eq_sum (lat lon : ℝ) (hs : List Hotspot) :
    hotspot_contribution lat lon hs =
      (hs.map (fun spot => spot.weight *
        spot_influence spot (haversine_distance_km lat lon spot.lat spot.lon))).sum := by
  unfold hotspot_contribution
  rw [hotspot_foldl]
  ring

theorem sin_lb (x s : ℝ) (h0 : 0 < x) (h1 : x ≤ 1) (hs : s ≤ x - x ^ 3 / 4) :
    s ≤ sin x := le_trans hs (le_of_lt (Real.sin_gt_sub_cube h0 h1))

theorem sin_sq_lb (x s : ℝ) (h0 : 0 < x) (h1 : x ≤ 1) (hs0 : 0 ≤ s)
    (hs : s ≤ x - x ^ 3 / 4) : s ^ 2 ≤ sin x ^ 2 :=
  pow_le_pow_left₀ hs0 (sin_lb x s h0 h1 hs) 2

theorem cos_radians_nonneg (lat : ℝ) (h1 : -90 ≤ lat) (h2 : lat ≤ 90) :
    0 ≤ cos (radians lat) := by
  apply Real.cos_nonneg_of_mem_Icc
  unfold radians
  constructor
  · nlinarith [mul_nonneg (show (0 : ℝ) ≤ lat + 90 by linarith) Real.pi_pos.le]
  · nlinarith [mul_nonneg (show (0 : ℝ) ≤ 90 - lat by linarith) Real.pi_pos.le]

theorem hav_a_ge_lat_term (lat1 lon1 lat2 lon2 : ℝ)
    (h1 : 0 ≤ cos (radians lat1)) (h2 : 0 ≤ cos (radians lat2)) :
    sin (radians (lat2 - lat1) / 2) ^ 2 ≤ hav_a lat1 lon1 lat2 lon2 := by
  unfold hav_a
  have := mul_nonneg (mul_nonneg h1 h2)
    (sq_nonneg (sin (radians (lon2 - lon1) / 2)))
  linarith

theorem atan2_sqrt_ge (a s : ℝ) (hs0 : 0 ≤ s) (hs1 : s ≤ 1) (hsa : s ^ 2 ≤ a) :
    s ≤ atan2 (Real.sqrt a) (Real.sqrt (1 - a)) := by
  have ha0 : 0 ≤ a := le_trans (sq_nonneg s) hsa
  rcases lt_or_le a 1 with hlt | hge
  · have hx : 0 < Real.sqrt (1 - a) := Real.sqrt_pos.mpr (by linarith)
    unfold atan2
    rw [if_pos hx]
    have ht0 : 0 ≤ Real.sqrt a / Real.sqrt (1 - a) :=
      div_nonneg (Real.sqrt_nonneg a) (le_of_lt hx)
    have hsin : sin (arctan (Real.sqrt a / Real.sqrt (1 - a))) = Real.sqrt a := by
      rw [Real.sin_arctan]
      have h1 : 1 + (Real.sqrt a / Real.sqrt (1 - a)) ^ 2 = (1 - a)⁻¹ := by
        have hne : (1 - a) ≠ 0 := (show (0 : ℝ) < 1 - a by linarith).ne'
        rw [div_pow, Real.sq_sqrt ha0, Real.sq_sqrt (by linarith : (0 : ℝ) ≤ 1 - a)]
        field_simp
      rw [h1, Real.sqrt_inv]
      field_simp
    have harc0 : 0 ≤ arctan (Real.sqrt a / Real.sqrt (1 - a)) := by
      rw [show (0 : ℝ) = arctan 0 from Real.arctan_zero.symm]
      exact Real.arctan_strictMono.monotone ht0
    have hge1 : Real.sqrt a ≤ arctan (Real.sqrt a / Real.sqrt (1 - a)) :=
      calc Real.sqrt a = sin (arctan (Real.sqrt a / Real.sqrt (1 - a))) := hsin.symm
        _ ≤ arctan (Real.sqrt a / Real.sqrt (1 - a)) := Real.sin_le harc0
    have hge2 : s ≤ Real.sqrt a := by
      rw [show s = Real.sqrt (s ^ 2) from (Real.sqrt_sq hs0).symm]
      exact Real.sqrt_le_sqrt hsa
    linarith
  · have hx0 : Real.sqrt (1 - a) = 0 := Real.sqrt_eq_zero'.mpr (by linarith)
    have hy : 0 < Real.sqrt a := Real.sqrt_pos.mpr (by linarith)
    unfold atan2
    rw [hx0, if_neg (lt_irrefl 0), if_neg (lt_irrefl 0), if_pos hy]
    linarith [Real.pi_gt_d6]

theorem haversine_lb (lat1 lon1 lat2 lon2 s : ℝ) (hs0 : 0 ≤ s) (hs1 : s ≤ 1)
    (ha : s ^ 2 ≤ hav_a lat1 lon1 lat2 lon2) :
    12742 * s ≤ haversine_distance_km lat1 lon1 lat2 lon2 := by
  unfold haversine_distance_km
  have h := atan2_sqrt_ge (hav_a lat1 lon1 lat2 lon2) s hs0 hs1 ha
  linarith

theorem haversine_lb_lat (lat1 lon1 lat2 lon2 s x : ℝ)
    (hlat1a : -90 ≤ lat1) (hlat1b : lat1 ≤ 90)
    (hlat2a : -90 ≤ lat2) (hlat2b : lat2 ≤ 90)
    (hx : radians (lat2 - lat1) / 2 = x ∨ radians (lat2 - lat1) / 2 = -x)
    (hx0 : 0 < x) (hx1 : x ≤ 1) (hs0 : 0 ≤ s) (hs1 : s ≤ 1)
    (hs : s ≤ x - x ^ 3 / 4) :
    12742 * s ≤ haversine_distance_km lat1 lon1 lat2 lon2 := by
  apply haversine_lb lat1 lon1 lat2 lon2 s hs0 hs1
  have hc1 := cos_radians_nonneg lat1 hlat1a hlat1b
  have hc2 := cos_radians_nonneg lat2 hlat2a hlat2b
  have hmain := hav_a_ge_lat_term lat1 lon1 lat2 lon2 hc1 hc2
  have hsq : s ^ 2 ≤ sin (radians (lat2 - lat1) / 2) ^ 2 := by
    rcases hx with h | h
    · rw [h]
      exact sin_sq_lb x s hx0 hx1 hs0 hs
    · rw [h, Real.sin_neg, neg_sq]
      exact sin_sq_lb x s hx0 hx1 hs0 hs
  linarith

theorem exp_neg_le (u T : ℝ) (hT : 0 ≤ T) (hTu : T ≤ u) :
    Real.exp (-u) ≤ 1 / (1 + T) := by
  have h1 : Real.exp (-u) ≤ Real.exp (-T) := Real.exp_le_exp.mpr (by linarith)
  have h2 : Real.exp (-T) ≤ 1 / (1 + T) := by
    rw [Real.exp_neg, one_div]
    exact inv_anti₀ (by linarith) (by linarith [Real.add_one_le_exp T])
  linarith

theorem spot_term_le (w r d s T : ℝ) (hw : 0 ≤ w) (hr : 0 < r) (hs0 : 0 ≤ s)
    (hd : 12742 * s ≤ d) (hT : 0 ≤ T) (hTd : T * r ^ 2 ≤ (12742 * s) ^ 2) :
    w * Real.exp (-(d / r) ^ 2) ≤ w / (1 + T) := by
  have hd0 : 0 ≤ d := le_trans (by positivity) hd
  have hT' : T ≤ (d / r) ^ 2 := by
    rw [div_pow, le_div_iff₀ (by positivity)]
    calc T * r ^ 2 ≤ (12742 * s) ^ 2 := hTd
      _ ≤ d ^ 2 := pow_le_pow_left₀ (by positivity) hd 2
  calc w * Real.exp (-(d / r) ^ 2) ≤ w * (1 / (1 + T)) :=
        mul_le_mul_of_nonneg_left (exp_neg_le ((d / r) ^ 2) T hT hT') hw
    _ = w / (1 + T) := by ring

theorem haversine_self (lat lon : ℝ) : haversine_distance_km lat lon lat lon = 0 := by
  unfold haversine_distance_km hav_a atan2 radians
  norm_num [Real.sqrt_one, Real.arctan_zero]

theorem dist_EA_45_90 : 12742 * 0.55 ≤ haversine_distance_km 45 90 (-25.5) 153 := by
  apply haversine_lb_lat 45 90 (-25.5) 153 0.55 (70.5 * π / 360)
    (by norm_num) (by norm_num) (by norm_num) (by norm_num)
    (Or.inr (by unfold radians; ring))
    (by nlinarith [Real.pi_gt_d6]) (by nlinarith [Real.pi_lt_d6])
    (by norm_num) (by norm_num)
  have hx1 : (0.61522 : ℝ) ≤ 70.5 * π / 360 := by nlinarith [Real.pi_gt_d6]
  have hx2 : 70.5 * π / 360 ≤ 0.61524 := by nlinarith [Real.pi_lt_d6]
  nlinarith [pow_le_pow_left₀ (show (0 : ℝ) ≤ 70.5 * π / 360 by linarith) hx2 3]

theorem dist_SA_45_90 : 12742 * 0.6 ≤ haversine_distance_km 45 90 (-34) 18.5 := by
  apply haversine_lb_lat 45 90 (-34) 18.5 0.6 (79 * π / 360)
    (by norm_num) (by norm_num) (by norm_num) (by norm_num)
    (Or.inr (by unfold radians; ring))
    (by nlinarith [Real.pi_gt_d6]) (by nlinarith [Real.pi_lt_d6])
    (by norm_num) (by norm_num)
  have hx1 : (0.68940 : ℝ) ≤ 79 * π / 360 := by nlinarith [Real.pi_gt_d6]
  have hx2 : 79 * π / 360 ≤ 0.68941 := by nlinarith [Real.pi_lt_d6]
  nlinarith [pow_le_pow_left₀ (show (0 : ℝ) ≤ 79 * π / 360 by linarith) hx2 3]

theorem dist_HI_45_90 : 12742 * 0.2 ≤ haversine_distance_km 45 90 20.9 (-157) := by
  apply haversine_lb_lat 45 90 20.9 (-157) 0.2 (24.1 * π / 360)
    (by norm_num) (by norm_num) (by norm_num) (by norm_num)
    (Or.inr (by unfold radians; ring))
    (by nlinarith [Real.pi_gt_d6]) (by nlinarith [Real.pi_lt_d6])
    (by norm_num) (by norm_num)
  have hx1 : (0.21031 : ℝ) ≤ 24.1 * π / 360 := by nlinarith [Real.pi_gt_d6]
  have hx2 : 24.1 * π / 360 ≤ 0.21032 := by nlinarith [Real.pi_lt_d6]
  nlinarith [pow_le_pow_left₀ (show (0 : ℝ) ≤ 24.1 * π / 360 by linarith) hx2 3]

theorem dist_FL_45_90 : 12742 * 0.15 ≤ haversine_distance_km 45 90 27.5 (-80) := by
  apply haversine_lb_lat 45 90 27.5 (-80) 0.15 (17.5 * π / 360)
    (by norm_num) (by norm_num) (by norm_num) (by norm_num)
    (Or.inr (by unfold radians; ring))
    (by nlinarith [Real.pi_gt_d6]) (by nlinarith [Real.pi_lt_d6])
    (by norm_num) (by norm_num)
  have hx1 : (0.15271 : ℝ) ≤ 17.5 * π / 360 := by nlinarith [Real.pi_gt_d6]
  have hx2 : 17.5 * π / 360 ≤ 0.15272 := by nlinarith [Real.pi_lt_d6]
  nlinarith [pow_le_pow_left₀ (show (0 : ℝ) ≤ 17.5 * π / 360 by linarith) hx2 3]

theorem dist_CA_45_90 : 12742 * 0.095 ≤ haversine_distance_km 45 90 34 (-119.5) := by
  apply haversine_lb_lat 45 90 34 (-119.5) 0.095 (11 * π / 360)
    (by norm_num) (by norm_num) (by norm_num) (by norm_num)
    (Or.inr (by unfold radians; ring))
    (by nlinarith [Real.pi_gt_d6]) (by nlinarith [Real.pi_lt_d6])
    (by norm_num) (by norm_num)
  have hx1 : (0.09599 : ℝ) ≤ 11 * π / 360 := by nlinarith [Real.pi_gt_d6]
  have hx2 : 11 * π / 360 ≤ 0.09600 := by nlinarith [Real.pi_lt_d6]
  nlinarith [pow_le_pow_left₀ (show (0 : ℝ) ≤ 11 * π / 360 by linarith) hx2 3]

theorem dist_BR_45_90 : 12742 * 0.54 ≤ haversine_distance_km 45 90 (-22.9) (-43.2) := by
  apply haversine_lb_lat 45 90 (-22.9) (-43.2) 0.54 (67.9 * π / 360)
    (by norm_num) (by norm_num) (by norm_num) (by norm_num)
    (Or.inr (by unfold radians; ring))
    (by nlinarith [Real.pi_gt_d6]) (by nlinarith [Real.pi_lt_d6])
    (by norm_num) (by norm_num)
  have hx1 : (0.59253 : ℝ) ≤ 67.9 * π / 360 := by nlinarith [Real.pi_gt_d6]
  have hx2 : 67.9 * π / 360 ≤ 0.59254 := by nlinarith [Real.pi_lt_d6]
  nlinarith [pow_le_pow_left₀ (show (0 : ℝ) ≤ 67.9 * π / 360 by linarith) hx2 3]

theorem dist_RS_45_90 : 12742 * 0.21 ≤ haversine_distance_km 45 90 20 38.5 := by
  apply haversine_lb_lat 45 90 20 38.5 0.21 (25 * π / 360)
    (by norm_num) (by norm_num) (by norm_num) (by norm_num)
    (Or.inr (by unfold radians; ring))
    (by nlinarith [Real.pi_gt_d6]) (by nlinarith [Real.pi_lt_d6])
    (by norm_num) (by norm_num)
  have hx1 : (0.21816 : ℝ) ≤ 25 * π / 360 := by nlinarith [Real.pi_gt_d6]
  have hx2 : 25 * π / 360 ≤ 0.21817 := by nlinarith [Real.pi_lt_d6]
  nlinarith [pow_le_pow_left₀ (show (0 : ℝ) ≤ 25 * π / 360 by linarith) hx2 3]

theorem dist_SA_EA : 12742 * 0.074 ≤ haversine_distance_km (-25.5) 153 (-34) 18.5 := by
  apply haversine_lb_lat (-25.5) 153 (-34) 18.5 0.074 (8.5 * π / 360)
    (by norm_num) (by norm_num) (by norm_num) (by norm_num)
    (Or.inr (by unfold radians; ring))
    (by nlinarith [Real.pi_gt_d6]) (by nlinarith [Real.pi_lt_d6])
    (by norm_num) (by norm_num)
  have hx1 : (0.07417 : ℝ) ≤ 8.5 * π / 360 := by nlinarith [Real.pi_gt_d6]
  have hx2 : 8.5 * π / 360 ≤ 0.07418 := by nlinarith [Real.pi_lt_d6]
  nlinarith [pow_le_pow_left₀ (show (0 : ℝ) ≤ 8.5 * π / 360 by linarith) hx2 3]

theorem dist_HI_EA : 12742 * 0.388 ≤ haversine_distance_km (-25.5) 153 20.9 (-157) := by
  apply haversine_lb_lat (-25.5) 153 20.9 (-157) 0.388 (46.4 * π / 360)
    (by norm_num) (by norm_num) (by norm_num) (by norm_num)
    (Or.inl (by unfold radians; ring))
    (by nlinarith [Real.pi_gt_d6]) (by nlinarith [Real.pi_lt_d6])
    (by norm_num) (by norm_num)
  have hx1 : (0.40491 : ℝ) ≤ 46.4 * π / 360 := by nlinarith [Real.pi_gt_d6]
  have hx2 : 46.4 * π / 360 ≤ 0.40492 := by nlinarith [Real.pi_lt_d6]
  nlinarith [pow_le_pow_left₀ (show (0 : ℝ) ≤ 46.4 * π / 360 by linarith) hx2 3]

theorem dist_FL_EA : 12742 * 0.43 ≤ haversine_distance_km (-25.5) 153 27.5 (-80) := by
  apply haversine_lb_lat (-25.5) 153 27.5 (-80) 0.43 (53 * π / 360)
    (by norm_num) (by norm_num) (by norm_num) (by norm_num)
    (Or.inl (by unfold radians; ring))
    (by nlinarith [Real.pi_gt_d6]) (by nlinarith [Real.pi_lt_d6])
    (by norm_num) (by norm_num)
  have hx1 : (0.46251 : ℝ) ≤ 53 * π / 360 := by nlinarith [Real.pi_gt_d6]
  have hx2 : 53 * π / 360 ≤ 0.46252 := by nlinarith [Real.pi_lt_d6]
  nlinarith [pow_le_pow_left₀ (show (0 : ℝ) ≤ 53 * π / 360 by linarith) hx2 3]

theorem dist_CA_EA : 12742 * 0.48 ≤ haversine_distance_km (-25.5) 153 34 (-119.5) := by
  apply haversine_lb_lat (-25.5) 153 34 (-119.5) 0.48 (59.5 * π / 360)
    (by norm_num) (by norm_num) (by norm_num) (by norm_num)
    (Or.inl (by unfold radians; ring))
    (by nlinarith [Real.pi_gt_d6]) (by nlinarith [Real.pi_lt_d6])
    (by norm_num) (by norm_num)
  have hx1 : (0.51923 : ℝ) ≤ 59.5 * π / 360 := by nlinarith [Real.pi_gt_d6]
  have hx2 : 59.5 * π / 360 ≤ 0.51924 := by nlinarith [Real.pi_lt_d6]
  nlinarith [pow_le_pow_left₀ (show (0 : ℝ) ≤ 59.5 * π / 360 by linarith) hx2 3]

theorem dist_BR_EA : 12742 * 0.0226 ≤ haversine_distance_km (-25.5) 153 (-22.9) (-43.2) := by
  apply haversine_lb_lat (-25.5) 153 (-22.9) (-43.2) 0.0226 (2.6 * π / 360)
    (by norm_num) (by norm_num) (by norm_num) (by norm_num)
    (Or.inl (by unfold radians; ring))
    (by nlinarith [Real.pi_gt_d6]) (by nlinarith [Real.pi_lt_d6])
    (by norm_num) (by norm_num)
  have hx1 : (0.02268 : ℝ) ≤ 2.6 * π / 360 := by nlinarith [Real.pi_gt_d6]
  have hx2 : 2.6 * π / 360 ≤ 0.02269 := by nlinarith [Real.pi_lt_d6]
  nlinarith [pow_le_pow_left₀ (show (0 : ℝ) ≤ 2.6 * π / 360 by linarith) hx2 3]

theorem dist_RS_EA : 12742 * 0.38 ≤ haversine_distance_km (-25.5) 153 20 38.5 := by
  apply haversine_lb_lat (-25.5) 153 20 38.5 0.38 (45.5 * π / 360)
    (by norm_num) (by norm_num) (by norm_num) (by norm_num)
    (Or.inl (by unfold radians; ring))
    (by nlinarith [Real.pi_gt_d6]) (by nlinarith [Real.pi_lt_d6])
    (by norm_num) (by norm_num)
  have hx1 : (0.39706 : ℝ) ≤ 45.5 * π / 360 := by nlinarith [Real.pi_gt_d6]
  have hx2 : 45.5 * π / 360 ≤ 0.39707 := by nlinarith [Real.pi_lt_d6]
  nlinarith [pow_le_pow_left₀ (show (0 : ℝ) ≤ 45.5 * π / 360 by linarith) hx2 3]

theorem hots_45_90_le : hotspot_contribution 45 90 HOTSPOTS ≤ 0.04 := by
  rw [hotspot_contribution_eq_sum]
  simp only [HOTSPOTS, List.map_cons, List.map_nil, List.sum_cons, List.sum_nil,
    spot_influence]
  have t1 := spot_term_le 0.22 750 (haversine_distance_km 45 90 (-25.5) 153)
    0.55 87 (by norm_num) (by norm_num) (by norm_num) dist_EA_45_90
    (by norm_num) (by norm_num)
  have t2 := spot_term_le 0.18 550 (haversine_distance_km 45 90 (-34) 18.5)
    0.6 193 (by norm_num) (by norm_num) (by norm_num) dist_SA_45_90
    (by norm_num) (by norm_num)
  have t3 := spot_term_le 0.14 450 (haversine_distance_km 45 90 20.9 (-157))
    0.2 32 (by norm_num) (by norm_num) (by norm_num) dist_HI_45_90
    (by norm_num) (by norm_num)
  have t4 := spot_term_le 0.16 500 (haversine_distance_km 45 90 27.5 (-80))
    0.15 14 (by norm_num) (by norm_num) (by norm_num) dist_FL_45_90
    (by norm_num) (by norm_num)
  have t5 := spot_term_le 0.12 500 (haversine_distance_km 45 90 34 (-119.5))
    0.095 5.8 (by norm_num) (by norm_num) (by norm_num) dist_CA_45_90
    (by norm_num) (by norm_num)
  have t6 := spot_term_le 0.10 420 (haversine_distance_km 45 90 (-22.9) (-43.2))
    0.54 268 (by norm_num) (by norm_num) (by norm_num) dist_BR_45_90
    (by norm_num) (by norm_num)
  have t7 := spot_term_le 0.10 350 (haversine_distance_km 45 90 20 38.5)
    0.21 58 (by norm_num) (by norm_num) (by norm_num) dist_RS_45_90
    (by norm_num) (by norm_num)
  linarith [t1, t2, t3, t4, t5, t6, t7]

theorem hots_m255_153_bounds :
    0.22 ≤ hotspot_contribution (-25.5) 153 HOTSPOTS ∧
    hotspot_contribution (-25.5) 153 HOTSPOTS ≤ 0.338 := by
  rw [hotspot_contribution_eq_sum]
  simp only [HOTSPOTS, List.map_cons, List.map_nil, List.sum_cons, List.sum_nil,
    spot_influence]
  rw [haversine_self]
  have hEA : (0.22 : ℝ) * Real.exp (-(0 / 750) ^ 2) = 0.22 := by
    norm_num
  have t2 := spot_term_le 0.18 550 (haversine_distance_km (-25.5) 153 (-34) 18.5)
    0.074 2.9 (by norm_num) (by norm_num) (by norm_num) dist_SA_EA
    (by norm_num) (by norm_num)
  have t3 := spot_term_le 0.14 450 (haversine_distance_km (-25.5) 153 20.9 (-157))
    0.388 120 (by norm_num) (by norm_num) (by norm_num) dist_HI_EA
    (by norm_num) (by norm_num)
  have t4 := spot_term_le 0.16 500 (haversine_distance_km (-25.5) 153 27.5 (-80))
    0.43 120 (by norm_num) (by norm_num) (by norm_num) dist_FL_EA
    (by norm_num) (by norm_num)
  have t5 := spot_term_le 0.12 500 (haversine_distance_km (-25.5) 153 34 (-119.5))
    0.48 149 (by norm_num) (by norm_num) (by norm_num) dist_CA_EA
    (by norm_num) (by norm_num)
  have t6 := spot_term_le 0.10 420 (haversine_distance_km (-25.5) 153 (-22.9) (-43.2))
    0.0226 0.47 (by norm_num) (by norm_num) (by norm_num) dist_BR_EA
    (by norm_num) (by norm_num)
  have t7 := spot_term_le 0.10 350 (haversine_distance_km (-25.5) 153 20 38.5)
    0.38 191 (by norm_num) (by norm_num) (by norm_num) dist_RS_EA
    (by norm_num) (by norm_num)
  have n2 : (0 : ℝ) ≤ 0.18 *
      Real.exp (-(haversine_distance_km (-25.5) 153 (-34) 18.5 / 550) ^ 2) := by
    positivity
  have n3 : (0 : ℝ) ≤ 0.14 *
      Real.exp (-(haversine_distance_km (-25.5) 153 20.9 (-157) / 450) ^ 2) := by
    positivity
  have n4 : (0 : ℝ) ≤ 0.16 *
      Real.exp (-(haversine_distance_km (-25.5) 153 27.5 (-80) / 500) ^ 2) := by
    positivity
  have n5 : (0 : ℝ) ≤ 0.12 *
      Real.exp (-(haversine_distance_km (-25.5) 153 34 (-119.5) / 500) ^ 2) := by
    positivity
  have n6 : (0 : ℝ) ≤ 0.10 *
      Real.exp (-(haversine_distance_km (-25.5) 153 (-22.9) (-43.2) / 420) ^ 2) := by
    positivity
  have n7 : (0 : ℝ) ≤ 0.10 *
      Real.exp (-(haversine_distance_km (-25.5) 153 20 38.5 / 350) ^ 2) := by
    positivity
  rw [hEA]
  constructor
  · linarith [n2, n3, n4, n5, n6, n7]
  · linarith [t2, t3, t4, t5, t6, t7]

theorem clamp_45 : clamp 45 (-90) 90 = 45 := by
  unfold clamp
  rw [min_eq_right (by norm_num : (45 : ℝ) ≤ 90),
    max_eq_right (by norm_num : (-90 : ℝ) ≤ 45)]

theorem clamp_m255 : clamp (-25.5) (-90) 90 = -25.5 := by
  unfold clamp
  rw [min_eq_right (by norm_num : (-25.5 : ℝ) ≤ 90),
    max_eq_right (by norm_num : (-90 : ℝ) ≤ -25.5)]

theorem wrap_longitude_90 : wrap_longitude 90 = 90 := by
  have h : ⌊(90 + 180 : ℝ) / 360⌋ = 0 :=
    floor_eq_of _ 0 (by norm_num) (by norm_num)
  unfold wrap_longitude pymod
  rw [h]
  norm_num

theorem wrap_longitude_153 : wrap_longitude 153 = 153 := by
  have h : ⌊(153 + 180 : ℝ) / 360⌋ = 0 :=
    floor_eq_of _ 0 (by norm_num) (by norm_num)
  unfold wrap_longitude pymod
  rw [h]
  norm_num

theorem radians_45 : radians 45 = π / 4 := by
  unfold radians
  ring

theorem lat_factor_45 : lat_factor 45 = 0.3 := by
  unfold lat_factor clamp01 clamp
  rw [radians_45, Real.cos_pi_div_four, div_pow,
    Real.sq_sqrt (by norm_num : (0 : ℝ) ≤ 2),
    show |(45 : ℝ)| = 45 from abs_of_nonneg (by norm_num)]
  rw [min_eq_right (by norm_num : (1 - 45 / 30 : ℝ) ≤ 1),
    max_eq_left (by norm_num : (1 - 45 / 30 : ℝ) ≤ 0),
    min_eq_right (by norm_num : ((45 - 50) / 40 : ℝ) ≤ 1),
    max_eq_left (by norm_num : ((45 - 50) / 40 : ℝ) ≤ 0)]
  dsimp only
  rw [min_eq_right (by norm_num : (0.6 * (2 / 2 ^ 2) + 0.4 * 0 - 0.3 * 0 : ℝ) ≤ 1),
    max_eq_right (by norm_num : (0 : ℝ) ≤ 0.6 * (2 / 2 ^ 2) + 0.4 * 0 - 0.3 * 0)]
  norm_num

theorem land_penalty_45_90 : land_penalty 45 90 LAND_INTERIORS = 0.5 := by
  rw [land_penalty_eq_sum]
  simp only [LAND_INTERIORS, List.map_cons, List.map_nil, List.sum_cons,
    List.sum_nil, region_contains]
  norm_num

theorem land_penalty_m255_153 : land_penalty (-25.5) 153 LAND_INTERIORS = 0 := by
  rw [land_penalty_eq_sum]
  simp only [LAND_INTERIORS, List.map_cons, List.map_nil, List.sum_cons,
    List.sum_nil, region_contains]
  norm_num

theorem land_penalty_nil (lat lon : ℝ) : land_penalty lat lon [] = 0 := rfl

theorem current_factor_mem (lat lon : ℝ) :
    0 ≤ current_factor lat lon ∧ current_factor lat lon ≤ 1 := by
  unfold current_factor
  exact ⟨clamp01_nonneg _, clamp01_le_one _⟩

theorem hots_nonneg (lat lon : ℝ) :
    0 ≤ hotspot_contribution lat lon HOTSPOTS := by
  rw [hotspot_contribution_eq_sum]
  simp only [HOTSPOTS, List.map_cons, List.map_nil, List.sum_cons, List.sum_nil,
    spot_influence]
  positivity

theorem radians_25_5_bounds : (0.44505 : ℝ) ≤ radians 25.5 ∧ radians 25.5 ≤ 0.44506 := by
  unfold radians
  constructor
  · nlinarith [Real.pi_gt_d6]
  · nlinarith [Real.pi_lt_d6]

theorem cos_25_5_lb : (0.90096 : ℝ) ≤ cos (radians 25.5) := by
  have hx := radians_25_5_bounds
  have h : 1 - (radians 25.5) ^ 2 / 2 ≤ cos (radians 25.5) :=
    Real.one_sub_sq_div_two_le_cos
  nlinarith [h, pow_le_pow_left₀ (show (0 : ℝ) ≤ radians 25.5 by linarith [hx.1])
    hx.2 2]

theorem cos_25_5_ub : cos (radians 25.5) ≤ 0.90347 := by
  have hx := radians_25_5_bounds
  have hs : (0.2197 : ℝ) ≤ sin (radians 25.5 / 2) := by
    apply sin_lb _ _ (by linarith [hx.1]) (by linarith [hx.2])
    nlinarith [pow_le_pow_left₀ (show (0 : ℝ) ≤ radians 25.5 / 2 by linarith [hx.1])
      (show radians 25.5 / 2 ≤ 0.22253 by linarith [hx.2]) 3, hx.1]
  have hsq : (0.2197 : ℝ) ^ 2 ≤ sin (radians 25.5 / 2) ^ 2 :=
    pow_le_pow_left₀ (by norm_num) hs 2
  have hcos : cos (radians 25.5) = 1 - 2 * sin (radians 25.5 / 2) ^ 2 := by
    have h := Real.sin_sq_eq_half_sub (radians 25.5 / 2)
    rw [show 2 * (radians 25.5 / 2) = radians 25.5 by ring] at h
    linarith
  nlinarith [hsq, hcos]

theorem lat_factor_m255_bounds :
    (0.5469 : ℝ) ≤ lat_factor (-25.5) ∧ lat_factor (-25.5) ≤ 0.5498 := by
  unfold lat_factor clamp01 clamp
  rw [radians_neg, Real.cos_neg,
    show |(-25.5 : ℝ)| = 25.5 by rw [abs_neg]; exact abs_of_nonneg (by norm_num)]
  dsimp only
  rw [min_eq_right (by norm_num : (1 - 25.5 / 30 : ℝ) ≤ 1),
    max_eq_right (by norm_num : (0 : ℝ) ≤ 1 - 25.5 / 30),
    min_eq_right (by norm_num : ((25.5 - 50) / 40 : ℝ) ≤ 1),
    max_eq_left (by norm_num : ((25.5 - 50) / 40 : ℝ) ≤ 0)]
  have hlb := cos_25_5_lb
  have hub := cos_25_5_ub
  have hc0 : (0 : ℝ) ≤ cos (radians 25.5) := by linarith
  have hsqlb : (0.90096 : ℝ) ^ 2 ≤ cos (radians 25.5) ^ 2 :=
    pow_le_pow_left₀ (by norm_num) hlb 2
  have hsqub : cos (radians 25.5) ^ 2 ≤ (0.90347 : ℝ) ^ 2 :=
    pow_le_pow_left₀ hc0 hub 2
  rw [min_eq_right (show (0.6 * cos (radians 25.5) ^ 2 + 0.4 * (1 - 25.5 / 30) -
      0.3 * 0 : ℝ) ≤ 1 by nlinarith),
    max_eq_right (show (0 : ℝ) ≤ 0.6 * cos (radians 25.5) ^ 2 +
      0.4 * (1 - 25.5 / 30) - 0.3 * 0 by nlinarith)]
  constructor
  · nlinarith
  · nlinarith

theorem est_45_90_pen_zero : estimate_with 45 90 LAND_INTERIORS = 0 := by
  simp only [estimate_with]
  rw [clamp_45, wrap_longitude_90, lat_factor_45, land_penalty_45_90]
  have hcf := current_factor_mem 45 90
  have hh1 := hots_45_90_le
  rw [clamp01_of_nonpos _ (by linarith [hcf.2, hh1])]
  exact round3_zero

theorem est_45_90_nopen_bounds :
    0.154 ≤ estimate_with 45 90 [] ∧ estimate_with 45 90 [] ≤ 0.396 := by
  simp only [estimate_with]
  rw [clamp_45, wrap_longitude_90, lat_factor_45, land_penalty_nil]
  have hcf := current_factor_mem 45 90
  have hh1 := hots_45_90_le
  have hh0 := hots_nonneg 45 90
  set v := 0.05 + 0.35 * 0.3 + 0.20 * current_factor 45 90 +
    hotspot_contribution 45 90 HOTSPOTS - 0 with hv
  clear_value v
  have hvlb : (0.155 : ℝ) ≤ v := by
    rw [hv]
    linarith [hcf.1, hh0]
  have hvub : v ≤ 0.395 := by
    rw [hv]
    linarith [hcf.2, hh1]
  rw [clamp01_of_mem v (by linarith) (by linarith)]
  exact ⟨by linarith [le_round3 v], by linarith [round3_le v]⟩

theorem est_m255_153_range :
    0.45 ≤ estimate_with (-25.5) 153 LAND_INTERIORS ∧
    estimate_with (-25.5) 153 LAND_INTERIORS ≤ 0.79 := by
  simp only [estimate_with]
  rw [clamp_m255, wrap_longitude_153, land_penalty_m255_153]
  have hlf := lat_factor_m255_bounds
  have hcf := current_factor_mem (-25.5) 153
  have hh := hots_m255_153_bounds
  set v := 0.05 + 0.35 * lat_factor (-25.5) + 0.20 * current_factor (-25.5) 153 +
    hotspot_contribution (-25.5) 153 HOTSPOTS - 0 with hv
  clear_value v
  have hvlb : (0.4614 : ℝ) ≤ v := by
    rw [hv]
    linarith [hlf.1, hcf.1, hh.1]
  have hvub : v ≤ 0.7805 := by
    rw [hv]
    linarith [hlf.2, hcf.2, hh.2]
  rw [clamp01_of_mem v (by linarith) (by linarith)]
  exact ⟨by linarith [le_round3 v], by linarith [round3_le v]⟩

/-- Claim C8, counterexample.  At `(45, 90)` the probability is NOT reduced by
at least the 0.50 land penalty relative to the same point without the
penalty: the reduction is the whole no-penalty probability, which is below
`0.40`, because the penalty pushes the raw score under `0` and the final
clamp floors the with-penalty result at `0`. -/
theorem C8_land_reduction_cex :
    estimate_with 45 90 [] - estimate_with 45 90 LAND_INTERIORS < 0.5 := by
  rw [est_45_90_pen_zero]
  linarith [est_45_90_nopen_bounds.2]

/-- Claim C8, amended.  `estimate(45, 90)` (inside the Eurasian land box,
penalty `0.50`) is exactly `0.000`; relative to the same point with no land
penalty the probability is reduced by the entire no-penalty value, which is
at least `0.154` but strictly less than the nominal `0.50` penalty, because
the raw score falls below `0` and is clamped. -/
theorem C8_land_reduction_amended :
    shark_probability (.finite 45) (.finite 90) =
      .ok (estimate_with 45 90 LAND_INTERIORS) ∧
    estimate_with 45 90 LAND_INTERIORS = 0 ∧
    0.154 ≤ estimate_with 45 90 [] - estimate_with 45 90 LAND_INTERIORS ∧
    estimate_with 45 90 [] - estimate_with 45 90 LAND_INTERIORS < 0.5 := by
  refine ⟨rfl, est_45_90_pen_zero, ?_, ?_⟩
  · rw [est_45_90_pen_zero]
    linarith [est_45_90_nopen_bounds.1]
  · rw [est_45_90_pen_zero]
    linarith [est_45_90_nopen_bounds.2]

/-- Claim C9, counterexample.  At the Eastern Australia hotspot center
`(-25.5, 153)` the estimate is below `0.85`, so it does not lie in the
claimed range `[0.85, 1.0]` (the hotspot adds only its weight `0.22`). -/
theorem C9_hotspot_center_cex :
    estimate_with (-25.5) 153 LAND_INTERIORS < 0.85 := by
  linarith [est_m255_153_range.2]

/-- Claim C9, amended.  `estimate(-25.5, 153.0)` (Eastern Australia hotspot
center) returns a moderate probability in `[0.45, 0.79]` (the exact value is
about `0.526`), not a high one in `[0.85, 1.0]`. -/
theorem C9_hotspot_center_amended :
    shark_probability (.finite (-25.5)) (.finite 153) =
      .ok (estimate_with (-25.5) 153 LAND_INTERIORS) ∧
    0.45 ≤ estimate_with (-25.5) 153 LAND_INTERIORS ∧
    estimate_with (-25.5) 153 LAND_INTERIORS ≤ 0.79 :=
  ⟨rfl, est_m255_153_range.1, est_m255_153_range.2⟩
